import Mathlib

/-!
Verification development for the autograd profiler core
(`torch/csrc/autograd/profiler.cpp`).

The shallow embedding models the profiler's thread-local session state,
the enable/disable lifecycle, the thread-local-setting replay applied to
spawned tasks, the installed instrumentation callback pair, and the
chrome-trace exporter.  Calls into the pluggable device-timing backend
(`cuda_stubs`) are recorded as an explicit trace of `CudaCall` values,
and the opaque elapsed-time primitive is a function parameter.
-/

set_option autoImplicit false

namespace AutogradProfiler

/-- `ProfilerState` from the profiler header: the mode of a session. -/
inductive ProfilerState where
  | Disabled
  | CPU
  | CUDA
  | NVTX
deriving DecidableEq, Repr

/-- `ProfilerConfig`: mode plus the report-input-shapes flag. -/
structure ProfilerConfig where
  state : ProfilerState
  report_input_shapes : Bool
deriving DecidableEq, Repr

/-- `EventKind` of a recorded profiling event. -/
inductive EventKind where
  | Mark
  | PushRange
  | PopRange
deriving DecidableEq, Repr

/-- One recorded profiling event.  `has_cuda` models whether a device-timing
handle was acquired for the event; `device` is the device the handle belongs
to (`-1` when none was acquired); `cpu_ns` is the clock reading. -/
structure Event where
  kind : EventKind
  name : String
  thread_id : Nat
  shapes : List (List Int)
  cpu_ns : Int
  has_cuda : Bool
  device : Int
deriving DecidableEq, Repr

/-- `Event::record(bool record_cuda)` (profiler.cpp:404): with `record_cuda`
the device backend fills the handle, device and clock reading; otherwise only
the monotonic clock is read.  The backend-provided readings are supplied as
the `now`/`dev` arguments. -/
def Event.record (kind : EventKind) (name : String) (tid : Nat)
    (record_cuda : Bool) (shapes : List (List Int)) (now : Int) (dev : Int) :
    Event :=
  if record_cuda then
    { kind := kind, name := name, thread_id := tid, shapes := shapes,
      cpu_ns := now, has_cuda := true, device := dev }
  else
    { kind := kind, name := name, thread_id := tid, shapes := shapes,
      cpu_ns := now, has_cuda := false, device := -1 }

/-- A call made into the device-timing backend (`cuda_stubs`). -/
inductive CudaCall where
  | nvtxMarkA (msg : String)
  | nvtxRangePushA (msg : String)
  | nvtxRangePop
  | synchronize
deriving DecidableEq, Repr

/-- `ProfilerThreadLocalState` (profiler.cpp:127): the per-session state, a
config plus the lazily populated thread-id-to-event-list map
(`event_lists_map_`), kept here as an insertion-ordered association list. -/
structure ProfilerThreadLocalState where
  config : ProfilerConfig
  event_lists_map : List (Nat × List Event)
deriving DecidableEq, Repr

/-- `getEventList` + `RangeEventList::record` (profiler.cpp:239): append an
event to the calling thread's list, creating the map entry on first use. -/
def recordEvent (m : List (Nat × List Event)) (tid : Nat) (e : Event) :
    List (Nat × List Event) :=
  match m with
  | [] => [(tid, [e])]
  | (t, l) :: rest =>
    if t = tid then (t, l ++ [e]) :: rest
    else (t, l) :: recordEvent rest tid e

/-- `ProfilerThreadLocalState::consolidate` (profiler.cpp:140): flatten the
per-thread map into a sequence of per-thread event sequences. -/
def ProfilerThreadLocalState.consolidate (st : ProfilerThreadLocalState) :
    List (List Event) :=
  st.event_lists_map.map (fun p => p.2)

/-- `ProfilerThreadLocalState::mark` (profiler.cpp:150): no-op when Disabled;
in NVTX mode forward to the backend's point-mark primitive; otherwise append
a Mark event, requesting a device handle iff `include_cuda` and CUDA mode. -/
def ProfilerThreadLocalState.mark (st : ProfilerThreadLocalState)
    (name : String) (include_cuda : Bool) (tid : Nat) (now : Int) (dev : Int) :
    ProfilerThreadLocalState × List CudaCall :=
  if st.config.state = ProfilerState.Disabled then (st, [])
  else if st.config.state = ProfilerState.NVTX then
    (st, [CudaCall.nvtxMarkA name])
  else
    let e := Event.record EventKind.Mark name tid
      (include_cuda && st.config.state == ProfilerState.CUDA) [] now dev
    ({ st with event_lists_map := recordEvent st.event_lists_map tid e }, [])

/-- Render one input shape for the NVTX message (profiler.cpp:186): a
bracketed, comma-separated list of dimension sizes, `[]` when empty. -/
def shapeText (sh : List Int) : String :=
  if sh.length > 0 then
    "[" ++ String.intercalate ", " (sh.map toString) ++ "]"
  else "[]"

/-- The `", sizes = [...]"` suffix of the NVTX range message
(profiler.cpp:183). -/
def sizesSuffix (shapes : List (List Int)) : String :=
  ", sizes = [" ++ String.intercalate ", " (shapes.map shapeText) ++ "]"

/-- The NVTX range message built by `pushRange` (profiler.cpp:178) when a
sequence number or input shapes are present. -/
def nvtxRangeText (name msg : String) (sequence_nr : Int)
    (shapes : List (List Int)) : String :=
  (if sequence_nr ≥ 0 then name ++ msg ++ toString sequence_nr else "") ++
  (if shapes.length > 0 then sizesSuffix shapes else "")

/-- `ProfilerThreadLocalState::pushRange` (profiler.cpp:169): no-op when
Disabled; in NVTX mode forward the (possibly formatted) message to the
backend's range-push primitive, touching no event list; otherwise append a
PushRange event carrying the shapes, requesting a device handle iff CUDA. -/
def ProfilerThreadLocalState.pushRange (st : ProfilerThreadLocalState)
    (name msg : String) (sequence_nr : Int) (shapes : List (List Int))
    (tid : Nat) (now : Int) (dev : Int) :
    ProfilerThreadLocalState × List CudaCall :=
  if st.config.state = ProfilerState.Disabled then (st, [])
  else if st.config.state = ProfilerState.NVTX then
    if sequence_nr ≥ 0 ∨ shapes.length > 0 then
      (st, [CudaCall.nvtxRangePushA (nvtxRangeText name msg sequence_nr shapes)])
    else
      (st, [CudaCall.nvtxRangePushA name])
  else
    let e := Event.record EventKind.PushRange name tid
      (st.config.state == ProfilerState.CUDA) shapes now dev
    ({ st with event_lists_map := recordEvent st.event_lists_map tid e }, [])

/-- `ProfilerThreadLocalState::popRange` (profiler.cpp:220): no-op when
Disabled; in NVTX mode forward to the backend's range-pop primitive;
otherwise append a nameless PopRange event. -/
def ProfilerThreadLocalState.popRange (st : ProfilerThreadLocalState)
    (tid : Nat) (now : Int) (dev : Int) :
    ProfilerThreadLocalState × List CudaCall :=
  if st.config.state = ProfilerState.Disabled then (st, [])
  else if st.config.state = ProfilerState.NVTX then
    (st, [CudaCall.nvtxRangePop])
  else
    let e := Event.record EventKind.PopRange "" tid
      (st.config.state == ProfilerState.CUDA) [] now dev
    ({ st with event_lists_map := recordEvent st.event_lists_map tid e }, [])

/-- Error kinds for the fallible operations (`TORCH_CHECK` failures and the
`std::logic_error` throws in `Event::cuda_elapsed_us`). -/
inductive ProfError where
  | configError
  | usageError
  | notRecordedForDevice
  | deviceMismatch
  | missingStartMarker
  | emptyRangeStack
deriving DecidableEq, Repr

/-- A side effect on the process-wide instrumentation machinery: a
`pushCallback`/`removeCallback` call, or a flip of the dispatch fast-path
flag (`tls_set_dispatch_key_included`). -/
inductive ProfAction where
  | installCallbacks (needs_inputs : Bool)
  | removeCallbacksAct
  | setDispatchFlag (b : Bool)
deriving DecidableEq, Repr

/-- The ambient state the profiler lifecycle manipulates, as seen from one
thread: the thread-local nesting depth (`profiler_nested_depth_`,
profiler.cpp:124), the PROFILER slot of the Scoped Context Registry (a stack,
head is the visible value), the installed profiler callback pair keyed by its
tag (`some needs_inputs` when installed), the dispatch fast-path flag, and
the device backend's availability and device count. -/
structure ProfilerGlobals where
  profiler_nested_depth : Int
  profiler_slot : List ProfilerThreadLocalState
  callbacks : Option Bool
  dispatch_flag : Bool
  cuda_enabled : Bool
  device_count : Nat
deriving DecidableEq, Repr

/-- One per-device pass of `cuda_stubs->onEachDevice` in `enableProfiler`
(profiler.cpp:366, 376): mark on each device in turn (with a device-timing
handle, since the session is in CUDA mode), optionally synchronizing after
each mark as the warm-up loop does. -/
def markOnDevices (name : String) (tid : Nat) (now : Int) (withSync : Bool) :
    List Nat → ProfilerThreadLocalState →
    ProfilerThreadLocalState × List CudaCall
  | [], st => (st, [])
  | d :: ds, st =>
    let r1 := st.mark name true tid now (d : Int)
    let r2 := markOnDevices name tid now withSync ds r1.1
    (r2.1, r1.2 ++ (if withSync then [CudaCall.synchronize] else []) ++ r2.2)

/-- The warm-up loop of `enableProfiler` (profiler.cpp:366): a fixed number
of `__cuda_startup` mark-and-synchronize passes over all devices. -/
def warmupLoop (tid : Nat) (now : Int) (devs : List Nat) :
    Nat → ProfilerThreadLocalState →
    ProfilerThreadLocalState × List CudaCall
  | 0, st => (st, [])
  | n + 1, st =>
    let r1 := markOnDevices "__cuda_startup" tid now true devs st
    let r2 := warmupLoop tid now devs n r1.1
    (r2.1, r1.2 ++ r2.2)

/-- `kCUDAWarmupStart` (profiler.cpp:334). -/
def kCUDAWarmupStart : Nat := 5

/-- `enableProfiler` (profiler.cpp:350).  Fails with a config error when NVTX
is requested without an available device backend, before any mutation.
Otherwise: construct a fresh session state, push it into the PROFILER slot,
install the callback pair (parameterized by `report_input_shapes`) and set
the fast-path flag on the depth transition to one, increment the depth, emit
the CUDA warm-up and per-device start marks in CUDA mode, and record the
CPU-only `__start_profile` mark.  The C++ mutates the pushed session in
place through its shared pointer; here the fully marked session is pushed,
observationally the same at return. -/
def enableProfiler (new_config : ProfilerConfig) (tid : Nat) (now : Int)
    (dev : Int) (g : ProfilerGlobals) :
    ProfilerGlobals × Option ProfError × List ProfAction × List CudaCall :=
  if new_config.state = ProfilerState.NVTX ∧ g.cuda_enabled = false then
    (g, some ProfError.configError, [], [])
  else
    let st0 : ProfilerThreadLocalState :=
      { config := new_config, event_lists_map := [] }
    let installing := g.profiler_nested_depth = 0
    let cb := if installing then some new_config.report_input_shapes
              else g.callbacks
    let flag := if installing then true else g.dispatch_flag
    let acts : List ProfAction :=
      if installing then
        [ProfAction.installCallbacks new_config.report_input_shapes,
         ProfAction.setDispatchFlag true]
      else []
    let r1 :=
      if new_config.state = ProfilerState.CUDA then
        let rA := warmupLoop tid now (List.range g.device_count)
          kCUDAWarmupStart st0
        let rB := markOnDevices "__cuda_start_event" tid now false
          (List.range g.device_count) rA.1
        (rB.1, rA.2 ++ rB.2)
      else (st0, ([] : List CudaCall))
    let r2 := r1.1.mark "__start_profile" false tid now dev
    ({ g with profiler_slot := r2.1 :: g.profiler_slot,
              callbacks := cb,
              dispatch_flag := flag,
              profiler_nested_depth := g.profiler_nested_depth + 1 },
     none, acts, r1.2 ++ r2.2)

/-- `disableProfiler` (profiler.cpp:383).  Pop the PROFILER slot (modelled
from the spec for the empty-slot case: pop on an empty slot removes nothing
and yields an absent value, since the registry implementation is outside the
given source); fail with a usage error when nothing valid was registered;
decrement the depth; clear the fast-path flag and remove the callbacks on
the transition to zero; return an empty result for an NVTX session,
otherwise record the `__stop_profile` mark and consolidate.  The final
component is the returned `thread_event_lists` (`none` when the call threw). -/
def disableProfiler (tid : Nat) (now : Int) (dev : Int)
    (g : ProfilerGlobals) :
    ProfilerGlobals × Option ProfError × List ProfAction × List CudaCall ×
      Option (List (List Event)) :=
  match g.profiler_slot with
  | [] => (g, some ProfError.usageError, [], [], none)
  | st :: rest =>
    if st.config.state = ProfilerState.Disabled then
      ({ g with profiler_slot := rest }, some ProfError.usageError,
       [], [], none)
    else
      let d := g.profiler_nested_depth - 1
      let removing := d = 0
      let cb := if removing then none else g.callbacks
      let flag := if removing then false else g.dispatch_flag
      let acts : List ProfAction :=
        if removing then
          [ProfAction.setDispatchFlag false, ProfAction.removeCallbacksAct]
        else []
      let g1 := { g with profiler_slot := rest,
                         profiler_nested_depth := d,
                         callbacks := cb,
                         dispatch_flag := flag }
      if st.config.state = ProfilerState.NVTX then
        (g1, none, acts, [], some [])
      else
        let r := st.mark "__stop_profile" true tid now dev
        (g1, none, acts, r.2, some r.1.consolidate)

/-- The getter registered for `ThreadLocalSetting::PROFILER`
(profiler.cpp:308): the captured value is whether the nesting depth is
positive, as an integer. -/
def profilerSettingGet (g : ProfilerGlobals) : Int :=
  if g.profiler_nested_depth > 0 then 1 else 0

/-- The setter registered for `ThreadLocalSetting::PROFILER`
(profiler.cpp:313), replayed on a spawned task with the captured value:
when the value is nonzero, install the callback pair (with default
`needs_inputs = false`) if the depth is zero, then increment it; when zero,
decrement the depth and remove the callbacks if it reached zero.  The
dispatch fast-path flag is not touched here. -/
def profilerSettingSet (v : Int) (g : ProfilerGlobals) :
    ProfilerGlobals × List ProfAction :=
  if v ≠ 0 then
    let installing := g.profiler_nested_depth = 0
    let cb := if installing then some false else g.callbacks
    let acts : List ProfAction :=
      if installing then [ProfAction.installCallbacks false] else []
    ({ g with callbacks := cb,
              profiler_nested_depth := g.profiler_nested_depth + 1 }, acts)
  else
    let d := g.profiler_nested_depth - 1
    if d = 0 then
      ({ g with profiler_nested_depth := d, callbacks := none },
       [ProfAction.removeCallbacksAct])
    else
      ({ g with profiler_nested_depth := d }, [])

/-- An operator input as the callback sees it (`c10::IValue`): either a
tensor-like value (defined or not, with its shape) or some other value. -/
inductive IValue where
  | tensor (defined : Bool) (sizes : List Int)
  | other
deriving DecidableEq, Repr

/-- The observed scope (`RecordFunction`): name, sequence number, inputs. -/
structure RecordFunction where
  name : String
  seqNr : Int
  inputs : List IValue
deriving DecidableEq, Repr

/-- The per-input shape computed by the enter callback's input loop
(profiler.cpp:270): a non-tensor or undefined-tensor input contributes an
empty inner sequence, a defined tensor contributes its sizes. -/
def inputSizeOf : IValue → List Int
  | IValue.tensor true sizes => sizes
  | IValue.tensor false _ => []
  | IValue.other => []

/-- The enter callback installed by `pushProfilingCallbacks`
(profiler.cpp:258): look up the current PROFILER slot; no-op when absent or
Disabled; otherwise compute the input shapes only when the callback's
`needs_inputs` parameter is set, and push a range for the scope. -/
def profilerEnterCallback (needs_inputs : Bool) (fn : RecordFunction)
    (tid : Nat) (now : Int) (dev : Int) (g : ProfilerGlobals) :
    ProfilerGlobals × List CudaCall :=
  match g.profiler_slot with
  | [] => (g, [])
  | st :: rest =>
    if st.config.state = ProfilerState.Disabled then (g, [])
    else
      let msg := if fn.seqNr ≥ 0 then ", seq = " else ""
      let inputSizes : List (List Int) :=
        if needs_inputs then fn.inputs.map inputSizeOf else []
      let r := st.pushRange fn.name msg fn.seqNr inputSizes tid now dev
      ({ g with profiler_slot := r.1 :: rest }, r.2)

/-- The exit callback installed by `pushProfilingCallbacks`
(profiler.cpp:288): look up the current PROFILER slot; no-op when absent or
Disabled; otherwise pop the range. -/
def profilerExitCallback (tid : Nat) (now : Int) (dev : Int)
    (g : ProfilerGlobals) : ProfilerGlobals × List CudaCall :=
  match g.profiler_slot with
  | [] => (g, [])
  | st :: rest =>
    if st.config.state = ProfilerState.Disabled then (g, [])
    else
      let r := st.popRange tid now dev
      ({ g with profiler_slot := r.1 :: rest }, r.2)

/-- `Event::cuda_elapsed_us` (profiler.cpp:412): error when either event was
recorded without a device-timing handle, error when the two handles belong
to different devices, otherwise the backend's elapsed-time primitive
(supplied as the opaque `deviceElapsed`). -/
def Event.cuda_elapsed_us (deviceElapsed : Event → Event → Int)
    (self e : Event) : Except ProfError Int :=
  if e.has_cuda = false ∨ self.has_cuda = false then
    Except.error ProfError.notRecordedForDevice
  else if e.device ≠ self.device then
    Except.error ProfError.deviceMismatch
  else
    Except.ok (deviceElapsed self e)

/-- Modelled from the spec: `Event::cpu_elapsed_us` is declared in the
profiler header, which is not part of the given source.  Per the spec's
consolidation section, the elapsed CPU time between two events uses the
device backend's elapsed-time primitive when both events carry a
device-timing handle, and plain monotonic-clock subtraction otherwise; the
device primitive is the opaque `deviceElapsed` parameter. -/
def Event.cpu_elapsed_us (deviceElapsed : Event → Event → Int)
    (self e : Event) : Int :=
  if self.has_cuda && e.has_cuda then deviceElapsed self e
  else e.cpu_ns - self.cpu_ns

/-- One emitted trace record of the default exporter: the matched range's
name, its start offset from the session start, its duration, and the
recording thread. -/
structure TraceRecord where
  name : String
  ts : Int
  dur : Int
  tid : Nat
deriving DecidableEq, Repr

/-- `event_template` (profiler.cpp:425) instantiated for one record. -/
def renderRecord (r : TraceRecord) : String :=
  "\n\x7b\n  \"name\": \"" ++ r.name ++ "\",\n  \"ph\": \"X\",\n  \"ts\": " ++
  toString r.ts ++ ",\n  \"dur\": " ++ toString r.dur ++ ",\n  \"tid\": " ++
  toString r.tid ++ ",\n  \"pid\": \"CPU Functions\",\n  \"args\": \x7b\x7d\n\x7d"

/-- The event loop of `RecordProfile::processEvents` (profiler.cpp:478):
walk the events with a stack of open PushRanges and the first-record flag,
appending one formatted record per PopRange; `none` models the out-of-range
`stack.back()` on an unmatched PopRange. -/
def processEventsGo (deviceElapsed : Event → Event → Int) (start : Event) :
    List Event → List Event → Bool → Option String
  | [], _, _ => some ""
  | e :: rest, stack, first =>
    if e.kind = EventKind.PushRange then
      processEventsGo deviceElapsed start rest (e :: stack) first
    else if e.kind = EventKind.PopRange then
      match stack with
      | [] => none
      | e_start :: stack2 =>
        let line :=
          (if first then "" else ",\n") ++
          renderRecord
            { name := e_start.name,
              ts := Event.cpu_elapsed_us deviceElapsed start e_start,
              dur := Event.cpu_elapsed_us deviceElapsed e_start e,
              tid := e_start.thread_id }
        (processEventsGo deviceElapsed start rest stack2 false).map
          (fun tail => line ++ tail)
    else
      processEventsGo deviceElapsed start rest stack first

/-- `RecordProfile::processEvents` (profiler.cpp:465): locate the event
named `__start_profile` (fatal export error when absent, before anything is
emitted), then emit the records enclosed in an array. -/
def processEvents (deviceElapsed : Event → Event → Int)
    (events : List Event) : Except ProfError String :=
  match events.find? (fun e => e.name == "__start_profile") with
  | none => Except.error ProfError.missingStartMarker
  | some start =>
    match processEventsGo deviceElapsed start events [] true with
    | none => Except.error ProfError.emptyRangeStack
    | some body => Except.ok ("[\n" ++ body ++ "]\n")

/-- The spec's description of the exporter, transcribed for the refinement
proof: maintain a stack of open PushRange events; each PopRange pops the
matching PushRange and yields one record whose start offset is the elapsed
CPU time from the session-start event to the PushRange, whose duration is
the elapsed CPU time from the PushRange to the PopRange, and whose thread id
is the recording thread's; Marks yield nothing. -/
def specTraceRecords (deviceElapsed : Event → Event → Int) (start : Event) :
    List Event → List Event → Option (List TraceRecord)
  | [], _ => some []
  | e :: rest, stack =>
    if e.kind = EventKind.PushRange then
      specTraceRecords deviceElapsed start rest (e :: stack)
    else if e.kind = EventKind.PopRange then
      match stack with
      | [] => none
      | p :: stack2 =>
        (specTraceRecords deviceElapsed start rest stack2).map
          (fun rs =>
            { name := p.name,
              ts := Event.cpu_elapsed_us deviceElapsed start p,
              dur := Event.cpu_elapsed_us deviceElapsed p e,
              tid := p.thread_id } :: rs)
    else specTraceRecords deviceElapsed start rest stack

/-- Comma-separate rendered records: the first record is emitted bare, every
later one is prefixed by a comma separator. -/
def joinRecords : Bool → List TraceRecord → String
  | _, [] => ""
  | first, r :: rs =>
    ((if first then "" else ",\n") ++ renderRecord r) ++ joinRecords false rs

/-- The three call sites that change the thread-local nesting depth:
`enableProfiler`, `disableProfiler`, and the PROFILER setting's setter
replayed on a spawned task. -/
inductive ProfOp where
  | enable (cfg : ProfilerConfig)
  | disable
  | settingReplay (v : Int)
deriving DecidableEq, Repr

/-- Whether the operation is an `enableProfiler` call. -/
def ProfOp.isEnable : ProfOp → Bool
  | ProfOp.enable _ => true
  | _ => false

/-- Whether the operation is a `disableProfiler` call. -/
def ProfOp.isDisable : ProfOp → Bool
  | ProfOp.disable => true
  | _ => false

/-- Whether the operation is a replayed setting setter. -/
def ProfOp.isReplay : ProfOp → Bool
  | ProfOp.settingReplay _ => true
  | _ => false

/-- Run one depth-changing operation, returning the new ambient state and
the actions performed on the callback registry and the fast-path flag. -/
def stepOp (op : ProfOp) (tid : Nat) (now : Int) (dev : Int)
    (g : ProfilerGlobals) : ProfilerGlobals × List ProfAction :=
  match op with
  | ProfOp.enable cfg =>
    ((enableProfiler cfg tid now dev g).1,
     (enableProfiler cfg tid now dev g).2.2.1)
  | ProfOp.disable =>
    ((disableProfiler tid now dev g).1,
     (disableProfiler tid now dev g).2.2.1)
  | ProfOp.settingReplay v => profilerSettingSet v g

/-- `profilerEnabled` (profiler.cpp:344). -/
def profilerEnabled (g : ProfilerGlobals) : Bool :=
  match g.profiler_slot with
  | [] => false
  | st :: _ => st.config.state != ProfilerState.Disabled

/-! ## Concrete instances used by witnesses and counterexamples -/

def gC1 : ProfilerGlobals := ⟨0, [], none, false, true, 1⟩

def gC2 : ProfilerGlobals := ⟨0, [], none, false, false, 0⟩

def evA : Event := ⟨EventKind.Mark, "__cuda_start_event", 3, [], 100, true, 0⟩
def evB : Event := ⟨EventKind.PopRange, "", 3, [], 150, true, 1⟩

def evsC7 : List Event :=
  [⟨EventKind.PushRange, "A", 3, [], 110, false, -1⟩,
   ⟨EventKind.PopRange, "", 3, [], 130, false, -1⟩]

def stC5 : ProfilerThreadLocalState := ⟨⟨ProfilerState.NVTX, true⟩, []⟩
def gC5 : ProfilerGlobals := ⟨1, [stC5], some true, true, true, 1⟩

def stC4 : ProfilerThreadLocalState := ⟨⟨ProfilerState.CPU, true⟩, []⟩
def gC4 : ProfilerGlobals := ⟨0, [stC4], none, false, true, 1⟩
def fnC4 : RecordFunction := ⟨"aten::add", 7, [IValue.tensor true [2, 3]]⟩

def stC4w : ProfilerThreadLocalState := ⟨⟨ProfilerState.CPU, true⟩, []⟩
def gC4w : ProfilerGlobals := ⟨1, [stC4w], some true, true, true, 1⟩
def fnC4w : RecordFunction :=
  ⟨"aten::mm", 9, [IValue.tensor true [4, 5], IValue.other,
                   IValue.tensor false []]⟩

def gC10a : ProfilerGlobals :=
  ⟨1, [⟨⟨ProfilerState.CPU, true⟩, []⟩], some true, true, true, 1⟩
def gC10b : ProfilerGlobals :=
  ⟨0, [⟨⟨ProfilerState.CPU, true⟩, []⟩], none, false, true, 1⟩

def gC3 : ProfilerGlobals := ⟨0, [], none, false, true, 1⟩

def gC3w : ProfilerGlobals := ⟨1, [], some false, false, true, 1⟩

def appendEvents (m : List (Nat × List Event)) (tid : Nat)
    (es : List Event) : List (Nat × List Event) :=
  es.foldl (fun m e => recordEvent m tid e) m

def cudaMarkEvent (name : String) (tid : Nat) (now : Int) (d : Nat) :
    Event :=
  ⟨EventKind.Mark, name, tid, [], now, true, (d : Int)⟩

def perDeviceMarks (name : String) (tid : Nat) (now : Int) (nDev : Nat) :
    List Event :=
  (List.range nDev).map (cudaMarkEvent name tid now)

def warmupMarks (tid : Nat) (now : Int) (nDev : Nat) : Nat → List Event
  | 0 => []
  | n + 1 => perDeviceMarks "__cuda_startup" tid now nDev ++
      warmupMarks tid now nDev n

def dEC8 : Event → Event → Int := fun _ _ => 0

def startC8 : Event :=
  ⟨EventKind.Mark, "__start_profile", 3, [], 100, false, -1⟩

def evsC8 : List Event :=
  [startC8,
   ⟨EventKind.PushRange, "A", 3, [], 110, false, -1⟩,
   ⟨EventKind.PushRange, "B", 3, [], 120, false, -1⟩,
   ⟨EventKind.PopRange, "", 3, [], 130, false, -1⟩,
   ⟨EventKind.PopRange, "", 3, [], 140, false, -1⟩,
   ⟨EventKind.Mark, "__stop_profile", 3, [], 150, false, -1⟩]

def rsC8 : List TraceRecord := [⟨"B", 20, 10, 3⟩, ⟨"A", 10, 30, 3⟩]

/-! ## Small facts about `Event.record` -/

theorem Event.record_shapes (k : EventKind) (n : String) (t : Nat) (rc : Bool)
    (sh : List (List Int)) (now dev : Int) :
    (Event.record k n t rc sh now dev).shapes = sh := by
  unfold Event.record; split <;> rfl

theorem Event.record_kind (k : EventKind) (n : String) (t : Nat) (rc : Bool)
    (sh : List (List Int)) (now dev : Int) :
    (Event.record k n t rc sh now dev).kind = k := by
  unfold Event.record; split <;> rfl

theorem Event.record_name (k : EventKind) (n : String) (t : Nat) (rc : Bool)
    (sh : List (List Int)) (now dev : Int) :
    (Event.record k n t rc sh now dev).name = n := by
  unfold Event.record; split <;> rfl

theorem Event.record_has_cuda (k : EventKind) (n : String) (t : Nat)
    (rc : Bool) (sh : List (List Int)) (now dev : Int) :
    (Event.record k n t rc sh now dev).has_cuda = rc := by
  unfold Event.record; cases rc <;> simp

/-! ## C1: disable with no registered session -/

/-- C1: when no profiling session is registered in the PROFILER slot,
`disableProfiler` fails with a usage error and the whole ambient state —
registry slot, nesting depth, callback registry and fast-path flag — is
returned unchanged, no actions performed, nothing returned. -/
theorem disable_without_session (tid : Nat) (now dev : Int)
    (g : ProfilerGlobals) (h : g.profiler_slot = []) :
    disableProfiler tid now dev g =
      (g, some ProfError.usageError, [], [], none) := by
  unfold disableProfiler
  rw [h]

theorem disable_without_session_witness :
    disableProfiler 3 100 0 gC1 =
      (gC1, some ProfError.usageError, [], [], none) :=
  disable_without_session 3 100 0 gC1 rfl

/-! ## C2: enable in NVTX mode without an available device backend -/

/-- C2: `enableProfiler` with NVTX mode while the device backend reports
itself unavailable fails with a config error before any mutation: the
returned state equals the input state, and no actions or backend calls are
performed. -/
theorem enable_nvtx_unavailable (cfg : ProfilerConfig) (tid : Nat)
    (now dev : Int) (g : ProfilerGlobals)
    (h1 : cfg.state = ProfilerState.NVTX) (h2 : g.cuda_enabled = false) :
    enableProfiler cfg tid now dev g =
      (g, some ProfError.configError, [], []) := by
  unfold enableProfiler
  rw [if_pos ⟨h1, h2⟩]

theorem enable_nvtx_unavailable_witness :
    enableProfiler ⟨ProfilerState.NVTX, true⟩ 3 100 0 gC2 =
      (gC2, some ProfError.configError, [], []) :=
  enable_nvtx_unavailable ⟨ProfilerState.NVTX, true⟩ 3 100 0 gC2 rfl rfl

/-! ## C6: device-based elapsed time errors -/

/-- C6: `Event::cuda_elapsed_us` raises an error whenever the two events'
device-timing handles belong to different devices, and whenever either event
lacks a handle; the error is surfaced as an error result and no elapsed
value is produced. -/
theorem cuda_elapsed_us_rejects (deviceElapsed : Event → Event → Int)
    (a b : Event)
    (h : b.has_cuda = false ∨ a.has_cuda = false ∨ b.device ≠ a.device) :
    (∃ err, Event.cuda_elapsed_us deviceElapsed a b = Except.error err) ∧
    ∀ v, Event.cuda_elapsed_us deviceElapsed a b ≠ Except.ok v := by
  have herr : Event.cuda_elapsed_us deviceElapsed a b =
        Except.error ProfError.notRecordedForDevice ∨
      Event.cuda_elapsed_us deviceElapsed a b =
        Except.error ProfError.deviceMismatch := by
    unfold Event.cuda_elapsed_us
    split_ifs with h1 h2
    · left; rfl
    · right; rfl
    · exfalso
      rcases h with h | h | h <;> simp_all
  rcases herr with h' | h' <;>
    exact ⟨⟨_, h'⟩, fun v hv => by rw [h'] at hv; cases hv⟩

theorem cuda_elapsed_us_rejects_witness :
    (∃ err, Event.cuda_elapsed_us (fun _ _ => 0) evA evB = Except.error err) ∧
    ∀ v, Event.cuda_elapsed_us (fun _ _ => 0) evA evB ≠ Except.ok v :=
  cuda_elapsed_us_rejects (fun _ _ => 0) evA evB (Or.inr (Or.inr (by decide)))

/-! ## C7: export without the start-of-session marker -/

/-- C7: the exporter searches the events for the one named
`__start_profile` and fails with a fatal export error, emitting nothing,
when no such event is present. -/
theorem export_missing_start (deviceElapsed : Event → Event → Int)
    (events : List Event)
    (h : ∀ e ∈ events, e.name ≠ "__start_profile") :
    processEvents deviceElapsed events =
      Except.error ProfError.missingStartMarker := by
  unfold processEvents
  have hf : events.find? (fun e => e.name == "__start_profile") = none := by
    rw [List.find?_eq_none]
    intro e he
    simpa using h e he
  rw [hf]

theorem export_missing_start_witness :
    processEvents (fun _ _ => 0) evsC7 =
      Except.error ProfError.missingStartMarker :=
  export_missing_start (fun _ _ => 0) evsC7 (by decide)

/-! ## C5: NVTX sessions forward to the backend and buffer nothing -/

/-- C5: in NVTX mode, `pushRange`, `popRange` and `mark` forward directly to
the backend's native primitives and leave the session's event lists
untouched, and `disableProfiler` on an NVTX session returns the empty
consolidated result. -/
theorem nvtx_direct_no_buffering (st : ProfilerThreadLocalState)
    (h : st.config.state = ProfilerState.NVTX) :
    (∀ name ic tid now dev,
       st.mark name ic tid now dev = (st, [CudaCall.nvtxMarkA name])) ∧
    (∀ name msg seq shapes tid now dev,
       (st.pushRange name msg seq shapes tid now dev).1 = st ∧
       ∃ m, (st.pushRange name msg seq shapes tid now dev).2 =
         [CudaCall.nvtxRangePushA m]) ∧
    (∀ tid now dev, st.popRange tid now dev = (st, [CudaCall.nvtxRangePop])) ∧
    (∀ tid now dev g rest, g.profiler_slot = st :: rest →
       (disableProfiler tid now dev g).2.2.2.2 = some [] ∧
       (disableProfiler tid now dev g).2.2.2.1 = []) := by
  refine ⟨?_, ?_, ?_, ?_⟩
  · intro name ic tid now dev
    unfold ProfilerThreadLocalState.mark
    rw [h]
    rfl
  · intro name msg seq shapes tid now dev
    unfold ProfilerThreadLocalState.pushRange
    rw [h]
    have hne : ¬(ProfilerState.NVTX = ProfilerState.Disabled) := by decide
    rw [if_neg hne, if_pos rfl]
    by_cases hc : seq ≥ 0 ∨ shapes.length > 0
    · rw [if_pos hc]; exact ⟨rfl, _, rfl⟩
    · rw [if_neg hc]; exact ⟨rfl, _, rfl⟩
  · intro tid now dev
    unfold ProfilerThreadLocalState.popRange
    rw [h]
    rfl
  · intro tid now dev g rest hslot
    unfold disableProfiler
    rw [hslot]
    simp [h]

theorem nvtx_direct_no_buffering_witness :
    stC5.mark "m" true 3 5 0 = (stC5, [CudaCall.nvtxMarkA "m"]) ∧
    (stC5.pushRange "foo" ", seq = " 4 [[2, 3], []] 3 5 0).1 = stC5 ∧
    stC5.popRange 3 5 0 = (stC5, [CudaCall.nvtxRangePop]) ∧
    (disableProfiler 3 5 0 gC5).2.2.2.2 = some [] := by
  have hthm := nvtx_direct_no_buffering stC5 rfl
  exact ⟨hthm.1 "m" true 3 5 0,
         (hthm.2.1 "foo" ", seq = " 4 [[2, 3], []] 3 5 0).1,
         hthm.2.2.1 3 5 0,
         (hthm.2.2.2 3 5 0 gC5 [] rfl).1⟩

/-! ## C4: input-shape population is governed by the installed callback -/

/-- C4 counterexample: on a spawned task the setting propagator installs the
callback pair with `needs_inputs = false`; a scope entry recorded through it
then carries no input shapes even though the active session has
`report_input_shapes = true` and a defined tensor input was available —
refuting the claim that `report_input_shapes = true` populates
`input_shapes` for every entry including entries on propagated tasks. -/
theorem input_shapes_claim_refuted :
    (profilerSettingSet 1 gC4).2 = [ProfAction.installCallbacks false] ∧
    ((profilerSettingSet 1 gC4).1.profiler_slot.map
        (fun st => st.config.report_input_shapes)) = [true] ∧
    fnC4.inputs = [IValue.tensor true [2, 3]] ∧
    ((profilerEnterCallback false fnC4 3 101 0
        (profilerSettingSet 1 gC4).1).1.profiler_slot.map
        (fun st => st.event_lists_map)) =
      [[(3, [⟨EventKind.PushRange, "aten::add", 3, [], 101, false, -1⟩])]] :=
  ⟨rfl, rfl, rfl, rfl⟩

/-- C4 (amended): for every scope entry recorded through the installed enter
callback into an active buffering (CPU/CUDA) session, the recorded event's
`input_shapes` is governed by the callback's `needs_inputs` parameter: when
it is false the shapes are never populated even if inputs were available;
when it is true one inner sequence is recorded per input, with each
non-tensor-like or undefined input contributing an empty inner sequence. -/
theorem enter_callback_shapes (needs_inputs : Bool) (fn : RecordFunction)
    (tid : Nat) (now dev : Int) (g : ProfilerGlobals)
    (st : ProfilerThreadLocalState) (rest : List ProfilerThreadLocalState)
    (hslot : g.profiler_slot = st :: rest)
    (hstate : st.config.state = ProfilerState.CPU ∨
      st.config.state = ProfilerState.CUDA) :
    ∃ evt : Event,
      (profilerEnterCallback needs_inputs fn tid now dev g).1 =
        { g with profiler_slot :=
            { st with event_lists_map :=
                recordEvent st.event_lists_map tid evt } :: rest } ∧
      evt.kind = EventKind.PushRange ∧ evt.name = fn.name ∧
      evt.shapes = (if needs_inputs then fn.inputs.map inputSizeOf else []) ∧
      (needs_inputs = false → evt.shapes = []) ∧
      (needs_inputs = true → evt.shapes.length = fn.inputs.length) ∧
      (∀ sz, inputSizeOf (IValue.tensor false sz) = []) ∧
      inputSizeOf IValue.other = [] := by
  have hnd : ¬(st.config.state = ProfilerState.Disabled) := by
    rcases hstate with h | h <;> rw [h] <;> decide
  have hnn : ¬(st.config.state = ProfilerState.NVTX) := by
    rcases hstate with h | h <;> rw [h] <;> decide
  refine ⟨Event.record EventKind.PushRange fn.name tid
      (st.config.state == ProfilerState.CUDA)
      (if needs_inputs then fn.inputs.map inputSizeOf else []) now dev,
    ?_, ?_, ?_, ?_, ?_, ?_, fun sz => rfl, rfl⟩
  · unfold profilerEnterCallback
    rw [hslot]
    simp only [if_neg hnd]
    unfold ProfilerThreadLocalState.pushRange
    rw [if_neg hnd, if_neg hnn]
  · exact Event.record_kind _ _ _ _ _ _ _
  · exact Event.record_name _ _ _ _ _ _ _
  · exact Event.record_shapes _ _ _ _ _ _ _
  · intro hni
    rw [Event.record_shapes, hni]
    rfl
  · intro hni
    rw [Event.record_shapes, hni]
    simp
theorem enter_callback_shapes_witness :
    ∃ evt : Event,
      (profilerEnterCallback true fnC4w 3 101 0 gC4w).1 =
        { gC4w with profiler_slot :=
            { stC4w with event_lists_map :=
                recordEvent stC4w.event_lists_map 3 evt } :: [] } ∧
      evt.kind = EventKind.PushRange ∧ evt.name = fnC4w.name ∧
      evt.shapes = (if true then fnC4w.inputs.map inputSizeOf else []) ∧
      (true = false → evt.shapes = []) ∧
      (true = true → evt.shapes.length = fnC4w.inputs.length) ∧
      (∀ sz, inputSizeOf (IValue.tensor false sz) = []) ∧
      inputSizeOf IValue.other = [] :=
  enter_callback_shapes true fnC4w 3 101 0 gC4w stC4w [] rfl (Or.inl rfl)

/-! ## C10: the callback parameterization is fixed at the install -/

/-- C10: the needs-inputs parameterization of the installed callback pair is
fixed while the depth is nonzero: a nested `enableProfiler` (whatever its
config's `report_input_shapes`) leaves the installed callbacks untouched and
performs no install action; and the replayed setting setter on a spawned
task always installs the callbacks with `needs_inputs = false`, regardless
of the parent session's configuration. -/
theorem needs_inputs_fixed_at_install (cfg : ProfilerConfig) (tid : Nat)
    (now dev : Int) (g : ProfilerGlobals) (v : Int) :
    (g.profiler_nested_depth ≠ 0 →
       (enableProfiler cfg tid now dev g).1.callbacks = g.callbacks ∧
       (enableProfiler cfg tid now dev g).2.2.1 = []) ∧
    (v ≠ 0 → g.profiler_nested_depth = 0 →
       (profilerSettingSet v g).1.callbacks = some false ∧
       ProfAction.installCallbacks false ∈ (profilerSettingSet v g).2) := by
  constructor
  · intro hd
    unfold enableProfiler
    by_cases hc : cfg.state = ProfilerState.NVTX ∧ g.cuda_enabled = false
    · rw [if_pos hc]
      exact ⟨rfl, rfl⟩
    · rw [if_neg hc]
      simp only [if_neg hd]
      exact ⟨trivial, trivial⟩
  · intro hv h0
    unfold profilerSettingSet
    rw [if_pos hv]
    simp [h0]

theorem needs_inputs_fixed_at_install_witness :
    ((enableProfiler ⟨ProfilerState.CPU, false⟩ 3 100 0 gC10a).1.callbacks =
        gC10a.callbacks ∧
      (enableProfiler ⟨ProfilerState.CPU, false⟩ 3 100 0 gC10a).2.2.1 = []) ∧
    ((profilerSettingSet 1 gC10b).1.callbacks = some false ∧
      ProfAction.installCallbacks false ∈ (profilerSettingSet 1 gC10b).2) :=
  ⟨(needs_inputs_fixed_at_install ⟨ProfilerState.CPU, false⟩ 3 100 0
      gC10a 1).1 (by decide),
   (needs_inputs_fixed_at_install ⟨ProfilerState.CPU, false⟩ 3 100 0
      gC10b 1).2 (by decide) rfl⟩

/-! ## C3: install/remove happen exactly at the depth transitions -/

theorem enableProfiler_characterization (cfg : ProfilerConfig) (tid : Nat)
    (now dev : Int) (g : ProfilerGlobals) :
    (enableProfiler cfg tid now dev g).1.profiler_nested_depth =
      (if cfg.state = ProfilerState.NVTX ∧ g.cuda_enabled = false then
        g.profiler_nested_depth else g.profiler_nested_depth + 1) ∧
    (enableProfiler cfg tid now dev g).2.2.1 =
      (if cfg.state = ProfilerState.NVTX ∧ g.cuda_enabled = false then []
       else if g.profiler_nested_depth = 0 then
        [ProfAction.installCallbacks cfg.report_input_shapes,
         ProfAction.setDispatchFlag true]
       else []) ∧
    (enableProfiler cfg tid now dev g).1.dispatch_flag =
      (if cfg.state = ProfilerState.NVTX ∧ g.cuda_enabled = false then
        g.dispatch_flag
       else if g.profiler_nested_depth = 0 then true else g.dispatch_flag) := by
  unfold enableProfiler
  by_cases hc : cfg.state = ProfilerState.NVTX ∧ g.cuda_enabled = false
  · simp [hc]
  · by_cases hd : g.profiler_nested_depth = 0 <;> simp [hc, hd]

theorem disableProfiler_nil_characterization (tid : Nat) (now dev : Int)
    (g : ProfilerGlobals) (h : g.profiler_slot = []) :
    disableProfiler tid now dev g =
      (g, some ProfError.usageError, [], [], none) := by
  unfold disableProfiler
  rw [h]

theorem disableProfiler_disabled_characterization (tid : Nat) (now dev : Int)
    (g : ProfilerGlobals) (st : ProfilerThreadLocalState)
    (rest : List ProfilerThreadLocalState) (h : g.profiler_slot = st :: rest)
    (hd : st.config.state = ProfilerState.Disabled) :
    disableProfiler tid now dev g =
      ({ g with profiler_slot := rest }, some ProfError.usageError,
       [], [], none) := by
  unfold disableProfiler
  rw [h]
  simp [hd]

theorem disableProfiler_active_characterization (tid : Nat) (now dev : Int)
    (g : ProfilerGlobals) (st : ProfilerThreadLocalState)
    (rest : List ProfilerThreadLocalState) (h : g.profiler_slot = st :: rest)
    (hnd : st.config.state ≠ ProfilerState.Disabled) :
    (disableProfiler tid now dev g).1.profiler_nested_depth =
      g.profiler_nested_depth - 1 ∧
    (disableProfiler tid now dev g).2.2.1 =
      (if g.profiler_nested_depth - 1 = 0 then
        [ProfAction.setDispatchFlag false, ProfAction.removeCallbacksAct]
       else []) ∧
    (disableProfiler tid now dev g).1.dispatch_flag =
      (if g.profiler_nested_depth - 1 = 0 then false else g.dispatch_flag) := by
  unfold disableProfiler
  rw [h]
  by_cases h0 : g.profiler_nested_depth - 1 = 0 <;>
    by_cases hnv : st.config.state = ProfilerState.NVTX <;>
      simp [hnd, h0, hnv]

theorem profilerSettingSet_characterization (v : Int) (g : ProfilerGlobals) :
    (profilerSettingSet v g).1.profiler_nested_depth =
      (if v ≠ 0 then g.profiler_nested_depth + 1
       else g.profiler_nested_depth - 1) ∧
    (profilerSettingSet v g).2 =
      (if v ≠ 0 then
        (if g.profiler_nested_depth = 0 then
          [ProfAction.installCallbacks false] else [])
       else if g.profiler_nested_depth - 1 = 0 then
        [ProfAction.removeCallbacksAct] else []) ∧
    (profilerSettingSet v g).1.dispatch_flag = g.dispatch_flag := by
  unfold profilerSettingSet
  by_cases hv : v ≠ 0
  · by_cases hd : g.profiler_nested_depth = 0 <;> simp [hv, hd]
  · by_cases hd : g.profiler_nested_depth - 1 = 0 <;> simp [hv, hd]

/-- C3 (amended): over all three depth-changing call sites — enable,
disable, and the replayed setting setter — the callback pair is installed
exactly when the thread-local depth transitions 0 to 1 and removed exactly
when it transitions 1 to 0 (so nested enables/disables at depth at least
one neither install nor remove); the dispatch fast-path flag is set exactly
at the 0-to-1 transitions performed by enable and cleared exactly at the
1-to-0 transitions performed by disable, while the replayed setter leaves
the flag untouched even when it installs or removes the callbacks. -/
theorem install_remove_at_transitions (op : ProfOp) (tid : Nat)
    (now dev : Int) (g : ProfilerGlobals) :
    ((∃ nb, ProfAction.installCallbacks nb ∈ (stepOp op tid now dev g).2) ↔
       (g.profiler_nested_depth = 0 ∧
        (stepOp op tid now dev g).1.profiler_nested_depth = 1)) ∧
    ((ProfAction.removeCallbacksAct ∈ (stepOp op tid now dev g).2) ↔
       (g.profiler_nested_depth = 1 ∧
        (stepOp op tid now dev g).1.profiler_nested_depth = 0)) ∧
    ((ProfAction.setDispatchFlag true ∈ (stepOp op tid now dev g).2) ↔
       (op.isEnable = true ∧ g.profiler_nested_depth = 0 ∧
        (stepOp op tid now dev g).1.profiler_nested_depth = 1)) ∧
    ((ProfAction.setDispatchFlag false ∈ (stepOp op tid now dev g).2) ↔
       (op.isDisable = true ∧ g.profiler_nested_depth = 1 ∧
        (stepOp op tid now dev g).1.profiler_nested_depth = 0)) ∧
    (op.isReplay = true →
       (stepOp op tid now dev g).1.dispatch_flag = g.dispatch_flag) := by
  cases op with
  | enable cfg =>
    have hch := enableProfiler_characterization cfg tid now dev g
    simp only [stepOp, ProfOp.isEnable, ProfOp.isDisable, ProfOp.isReplay]
    rw [hch.1, hch.2.1]
    by_cases hc : cfg.state = ProfilerState.NVTX ∧ g.cuda_enabled = false
    · simp only [if_pos hc]
      refine ⟨?_, ?_, ?_, ?_, ?_⟩ <;> simp <;> omega
    · simp only [if_neg hc]
      by_cases hd : g.profiler_nested_depth = 0
      · simp only [if_pos hd]
        refine ⟨?_, ?_, ?_, ?_, ?_⟩ <;> simp [hd] <;> try omega
      · simp only [if_neg hd]
        refine ⟨?_, ?_, ?_, ?_, ?_⟩ <;> simp [hd] <;> try omega
  | disable =>
    simp only [stepOp, ProfOp.isEnable, ProfOp.isDisable, ProfOp.isReplay]
    rcases hsl : g.profiler_slot with _ | ⟨st, rest⟩
    · rw [disableProfiler_nil_characterization tid now dev g hsl]
      refine ⟨?_, ?_, ?_, ?_, ?_⟩ <;> simp <;> omega
    · by_cases hdis : st.config.state = ProfilerState.Disabled
      · rw [disableProfiler_disabled_characterization tid now dev g st rest
          hsl hdis]
        refine ⟨?_, ?_, ?_, ?_, ?_⟩ <;> simp <;> omega
      · have hch := disableProfiler_active_characterization tid now dev g st
          rest hsl hdis
        rw [hch.1, hch.2.1]
        by_cases h0 : g.profiler_nested_depth - 1 = 0
        · simp only [if_pos h0]
          refine ⟨?_, ?_, ?_, ?_, ?_⟩ <;> simp <;> omega
        · simp only [if_neg h0]
          refine ⟨?_, ?_, ?_, ?_, ?_⟩ <;> simp <;> omega
  | settingReplay v =>
    have hch := profilerSettingSet_characterization v g
    simp only [stepOp, ProfOp.isEnable, ProfOp.isDisable, ProfOp.isReplay]
    rw [hch.1, hch.2.1]
    refine ⟨?_, ?_, ?_, ?_, fun _ => hch.2.2⟩ <;>
      by_cases hv : v ≠ 0 <;>
        first
        | (simp only [if_pos hv]
           by_cases hd : g.profiler_nested_depth = 0 <;> simp [hd] <;> omega)
        | (simp only [if_neg hv]
           by_cases hd : g.profiler_nested_depth - 1 = 0 <;>
             simp [hd] <;> omega)

/-- C3 counterexample: the setting setter replayed on a spawned task with a
positive captured value performs the 0-to-1 depth transition and installs
the callback pair, yet the dispatch fast-path flag stays cleared — refuting
the claim that the flag is set at exactly the 0-to-1 transitions for all
three call sites. -/
theorem dispatch_flag_not_set_on_replay :
    gC3.profiler_nested_depth = 0 ∧
    (stepOp (ProfOp.settingReplay 1) 3 100 0 gC3).1.profiler_nested_depth
      = 1 ∧
    ProfAction.installCallbacks false ∈
      (stepOp (ProfOp.settingReplay 1) 3 100 0 gC3).2 ∧
    gC3.dispatch_flag = false ∧
    (stepOp (ProfOp.settingReplay 1) 3 100 0 gC3).1.dispatch_flag = false ∧
    ProfAction.setDispatchFlag true ∉
      (stepOp (ProfOp.settingReplay 1) 3 100 0 gC3).2 := by
  decide

theorem install_remove_at_transitions_witness :
    ((∃ nb, ProfAction.installCallbacks nb ∈
        (stepOp (ProfOp.settingReplay 0) 3 100 0 gC3w).2) ↔
      (gC3w.profiler_nested_depth = 0 ∧
       (stepOp (ProfOp.settingReplay 0) 3 100 0 gC3w).1.profiler_nested_depth
         = 1)) ∧
    ((ProfAction.removeCallbacksAct ∈
        (stepOp (ProfOp.settingReplay 0) 3 100 0 gC3w).2) ↔
      (gC3w.profiler_nested_depth = 1 ∧
       (stepOp (ProfOp.settingReplay 0) 3 100 0 gC3w).1.profiler_nested_depth
         = 0)) ∧
    (stepOp (ProfOp.settingReplay 0) 3 100 0 gC3w).1.dispatch_flag =
      gC3w.dispatch_flag := by
  have hthm := install_remove_at_transitions (ProfOp.settingReplay 0)
    3 100 0 gC3w
  exact ⟨hthm.1, hthm.2.1, hthm.2.2.2.2 rfl⟩

/-! ## C9: the marks recorded by a CUDA-mode enable -/

theorem appendEvents_append (m : List (Nat × List Event)) (tid : Nat)
    (es1 es2 : List Event) :
    appendEvents m tid (es1 ++ es2) =
      appendEvents (appendEvents m tid es1) tid es2 := by
  simp [appendEvents, List.foldl_append]

theorem appendEvents_single (t : Nat) (l : List Event) (es : List Event) :
    appendEvents [(t, l)] t es = [(t, l ++ es)] := by
  induction es generalizing l with
  | nil => simp [appendEvents]
  | cons e es ih =>
    have hstep : appendEvents [(t, l)] t (e :: es) =
        appendEvents [(t, l ++ [e])] t es := by
      simp [appendEvents, recordEvent]
    rw [hstep, ih]
    simp

theorem appendEvents_nil_cons (t : Nat) (e : Event) (es : List Event) :
    appendEvents [] t (e :: es) = [(t, e :: es)] := by
  have hstep : appendEvents [] t (e :: es) = appendEvents [(t, [e])] t es :=
    rfl
  rw [hstep, appendEvents_single]
  rfl

theorem warmupMarks_length (tid : Nat) (now : Int) (nDev : Nat) (n : Nat) :
    (warmupMarks tid now nDev n).length = n * nDev := by
  induction n with
  | zero => simp [warmupMarks]
  | succ n ih =>
    simp [warmupMarks, perDeviceMarks, ih, Nat.succ_mul, Nat.add_comm]

theorem mark_cuda_fst (st : ProfilerThreadLocalState)
    (h : st.config.state = ProfilerState.CUDA) (name : String) (tid : Nat)
    (now : Int) (d : Nat) :
    (st.mark name true tid now (d : Int)).1 =
      { st with event_lists_map :=
          recordEvent st.event_lists_map tid (cudaMarkEvent name tid now d) } := by
  unfold ProfilerThreadLocalState.mark
  rw [h]
  simp [Event.record, cudaMarkEvent]

theorem markOnDevices_cuda (name : String) (tid : Nat) (now : Int)
    (withSync : Bool) (ds : List Nat) (st : ProfilerThreadLocalState)
    (h : st.config.state = ProfilerState.CUDA) :
    (markOnDevices name tid now withSync ds st).1 =
      { st with event_lists_map :=
          (appendEvents st.event_lists_map tid
            (ds.map (cudaMarkEvent name tid now))) } := by
  induction ds generalizing st with
  | nil => rfl
  | cons d ds ih =>
    show (markOnDevices name tid now withSync ds
        (st.mark name true tid now (d : Int)).1).1 = _
    rw [mark_cuda_fst st h name tid now d]
    rw [ih { st with event_lists_map :=
        (recordEvent st.event_lists_map tid (cudaMarkEvent name tid now d)) } h]
    rfl

theorem warmupLoop_cuda (tid : Nat) (now : Int) (nDev : Nat) (n : Nat)
    (st : ProfilerThreadLocalState)
    (h : st.config.state = ProfilerState.CUDA) :
    (warmupLoop tid now (List.range nDev) n st).1 =
      { st with event_lists_map :=
          (appendEvents st.event_lists_map tid
            (warmupMarks tid now nDev n)) } := by
  induction n generalizing st with
  | zero => rfl
  | succ n ih =>
    show (warmupLoop tid now (List.range nDev) n
        (markOnDevices "__cuda_startup" tid now true (List.range nDev)
          st).1).1 = _
    rw [markOnDevices_cuda _ _ _ _ _ _ h]
    rw [ih { st with event_lists_map :=
        (appendEvents st.event_lists_map tid
          ((List.range nDev).map (cudaMarkEvent "__cuda_startup" tid now))) } h]
    simp [warmupMarks, perDeviceMarks, appendEvents_append]

theorem mark_nodevice_fst (st : ProfilerThreadLocalState)
    (h : st.config.state = ProfilerState.CPU ∨
      st.config.state = ProfilerState.CUDA)
    (name : String) (tid : Nat) (now dev : Int) :
    (st.mark name false tid now dev).1 =
      { st with event_lists_map :=
          (recordEvent st.event_lists_map tid
            ⟨EventKind.Mark, name, tid, [], now, false, -1⟩) } := by
  unfold ProfilerThreadLocalState.mark
  rcases h with h | h <;> rw [h] <;> simp [Event.record]

theorem appendEvents_nil_total (t : Nat) (es : List Event) (h : es ≠ []) :
    appendEvents [] t es = [(t, es)] := by
  cases es with
  | nil => exact absurd rfl h
  | cons e es => exact appendEvents_nil_cons t e es

theorem record_two_append (t : Nat) (a b : List Event) (c : Event) :
    recordEvent (appendEvents (appendEvents [] t a) t b) t c =
      [(t, a ++ b ++ [c])] := by
  have h1 : recordEvent (appendEvents (appendEvents [] t a) t b) t c =
      appendEvents [] t (a ++ b ++ [c]) := by
    rw [appendEvents_append, appendEvents_append]
    rfl
  rw [h1, appendEvents_nil_total]
  simp

theorem enableProfiler_slot (cfg : ProfilerConfig) (tid : Nat)
    (now dev : Int) (g : ProfilerGlobals)
    (h : ¬(cfg.state = ProfilerState.NVTX ∧ g.cuda_enabled = false)) :
    (enableProfiler cfg tid now dev g).1.profiler_slot =
      ((if cfg.state = ProfilerState.CUDA then
          (markOnDevices "__cuda_start_event" tid now false
            (List.range g.device_count)
            (warmupLoop tid now (List.range g.device_count)
              kCUDAWarmupStart ⟨cfg, []⟩).1).1
        else ⟨cfg, []⟩).mark "__start_profile" false tid now dev).1 ::
        g.profiler_slot := by
  unfold enableProfiler
  rw [if_neg h]
  by_cases hc : cfg.state = ProfilerState.CUDA
  · simp only [if_pos hc]
  · simp only [if_neg hc]

/-- C9: `enableProfiler` in CUDA mode succeeds and records, into the fresh
session it pushes, `kCUDAWarmupStart` warm-up device marks per device
followed by one device-correlated `__cuda_start_event` mark per device and
finally the CPU-only `__start_profile` Mark, whose device-timing handle is
absent; in CPU mode the session holds only that CPU-only start Mark, so in
every buffering mode the start event the exporter uses carries no device
handle. -/
theorem cuda_enable_marks (b : Bool) (tid : Nat) (now dev : Int)
    (g : ProfilerGlobals) :
    (enableProfiler ⟨ProfilerState.CUDA, b⟩ tid now dev g).2.1 = none ∧
    (enableProfiler ⟨ProfilerState.CUDA, b⟩ tid now dev
        g).1.profiler_slot.head? =
      some { config := ⟨ProfilerState.CUDA, b⟩,
             event_lists_map := [(tid,
               warmupMarks tid now g.device_count kCUDAWarmupStart ++
               perDeviceMarks "__cuda_start_event" tid now g.device_count ++
               [⟨EventKind.Mark, "__start_profile", tid, [], now,
                 false, -1⟩])] } ∧
    (warmupMarks tid now g.device_count kCUDAWarmupStart).length =
      kCUDAWarmupStart * g.device_count ∧
    (perDeviceMarks "__cuda_start_event" tid now g.device_count).length =
      g.device_count ∧
    (enableProfiler ⟨ProfilerState.CPU, b⟩ tid now dev
        g).1.profiler_slot.head? =
      some { config := ⟨ProfilerState.CPU, b⟩,
             event_lists_map := [(tid,
               [⟨EventKind.Mark, "__start_profile", tid, [], now,
                 false, -1⟩])] } := by
  refine ⟨?_, ?_, warmupMarks_length tid now g.device_count kCUDAWarmupStart,
    by simp [perDeviceMarks], ?_⟩
  · unfold enableProfiler
    rw [if_neg (by simp :
      ¬((⟨ProfilerState.CUDA, b⟩ : ProfilerConfig).state =
          ProfilerState.NVTX ∧ g.cuda_enabled = false))]
  · rw [enableProfiler_slot ⟨ProfilerState.CUDA, b⟩ tid now dev g (by simp)]
    rw [if_pos (rfl :
      (⟨ProfilerState.CUDA, b⟩ : ProfilerConfig).state =
        ProfilerState.CUDA)]
    rw [warmupLoop_cuda tid now g.device_count kCUDAWarmupStart
      ⟨⟨ProfilerState.CUDA, b⟩, []⟩ rfl]
    rw [markOnDevices_cuda "__cuda_start_event" tid now false
      (List.range g.device_count)
      ⟨⟨ProfilerState.CUDA, b⟩,
        appendEvents [] tid
          (warmupMarks tid now g.device_count kCUDAWarmupStart)⟩ rfl]
    rw [mark_nodevice_fst
      ⟨⟨ProfilerState.CUDA, b⟩,
        appendEvents
          (appendEvents [] tid
            (warmupMarks tid now g.device_count kCUDAWarmupStart)) tid
          ((List.range g.device_count).map
            (cudaMarkEvent "__cuda_start_event" tid now))⟩
      (Or.inr rfl) "__start_profile" tid now dev]
    rw [List.head?_cons]
    show some (ProfilerThreadLocalState.mk ⟨ProfilerState.CUDA, b⟩
      (recordEvent
        (appendEvents
          (appendEvents [] tid
            (warmupMarks tid now g.device_count kCUDAWarmupStart)) tid
          ((List.range g.device_count).map
            (cudaMarkEvent "__cuda_start_event" tid now))) tid
        ⟨EventKind.Mark, "__start_profile", tid, [], now, false, -1⟩)) = _
    rw [record_two_append]
    rfl
  · rw [enableProfiler_slot ⟨ProfilerState.CPU, b⟩ tid now dev g (by simp)]
    rw [if_neg (by simp :
      ¬((⟨ProfilerState.CPU, b⟩ : ProfilerConfig).state =
          ProfilerState.CUDA))]
    rw [mark_nodevice_fst ⟨⟨ProfilerState.CPU, b⟩, []⟩ (Or.inl rfl)
      "__start_profile" tid now dev]
    rfl

/-! ## C8: the exporter pairs pushes with pops -/

theorem processEventsGo_eq_spec (deviceElapsed : Event → Event → Int)
    (start : Event) :
    ∀ (evs stack : List Event) (first : Bool),
      processEventsGo deviceElapsed start evs stack first =
        (specTraceRecords deviceElapsed start evs stack).map
          (joinRecords first) := by
  intro evs
  induction evs with
  | nil => intro stack first; rfl
  | cons e rest ih =>
    intro stack first
    by_cases h1 : e.kind = EventKind.PushRange
    · simp only [processEventsGo, specTraceRecords, if_pos h1]
      exact ih (e :: stack) first
    · by_cases h2 : e.kind = EventKind.PopRange
      · simp only [processEventsGo, specTraceRecords, if_neg h1, if_pos h2]
        cases stack with
        | nil => rfl
        | cons p stack2 =>
          dsimp only
          rw [ih stack2 false]
          cases hs : specTraceRecords deviceElapsed start rest stack2 with
          | none => rfl
          | some rs => rfl
      · simp only [processEventsGo, specTraceRecords, if_neg h1, if_neg h2]
        exact ih stack first

theorem specTraceRecords_length (deviceElapsed : Event → Event → Int)
    (start : Event) :
    ∀ (evs stack : List Event) (rs : List TraceRecord),
      specTraceRecords deviceElapsed start evs stack = some rs →
      rs.length =
        (evs.filter (fun e => e.kind == EventKind.PopRange)).length := by
  intro evs
  induction evs with
  | nil =>
    intro stack rs h
    simp only [specTraceRecords, Option.some_inj] at h
    simp [← h]
  | cons e rest ih =>
    intro stack rs h
    by_cases h1 : e.kind = EventKind.PushRange
    · simp only [specTraceRecords, if_pos h1] at h
      rw [List.filter_cons]
      have hk : (e.kind == EventKind.PopRange) = false := by
        rw [h1]; rfl
      rw [hk]
      simp only [Bool.false_eq_true, if_false]
      exact ih (e :: stack) rs h
    · by_cases h2 : e.kind = EventKind.PopRange
      · simp only [specTraceRecords, if_neg h1, if_pos h2] at h
        cases stack with
        | nil => cases h
        | cons p stack2 =>
          rcases Option.map_eq_some'.mp h with ⟨rs2, hrs2, hcons⟩
          rw [List.filter_cons]
          have hk : (e.kind == EventKind.PopRange) = true := by
            rw [h2]; rfl
          rw [hk]
          simp only [if_true]
          rw [← hcons]
          simp [ih stack2 rs2 hrs2]
      · simp only [specTraceRecords, if_neg h1, if_neg h2] at h
        rw [List.filter_cons]
        have hk : (e.kind == EventKind.PopRange) = false := by
          cases hke : e.kind
          · rfl
          · exact absurd hke h1
          · exact absurd hke h2
        rw [hk]
        simp only [Bool.false_eq_true, if_false]
        exact ih stack rs h

/-- C8: on a well-nested event sequence (one where `specTraceRecords`, the
transcription of the spec's stack-pairing description, succeeds) containing
the start-of-session event, the exporter emits exactly the spec's records —
one per PopRange in arrival order, each carrying the matching PushRange's
name, a start offset equal to the elapsed CPU time from the start event to
that PushRange, a duration equal to the elapsed CPU time from the PushRange
to the PopRange, and the recording thread's id — as a comma-separated
sequence enclosed in an array; Mark events contribute no records. -/
theorem exporter_pairs_ranges (deviceElapsed : Event → Event → Int)
    (events : List Event) (start : Event) (rs : List TraceRecord)
    (hstart : events.find? (fun e => e.name == "__start_profile") =
      some start)
    (hrs : specTraceRecords deviceElapsed start events [] = some rs) :
    processEvents deviceElapsed events =
      Except.ok ("[\n" ++ joinRecords true rs ++ "]\n") ∧
    rs.length =
      (events.filter (fun e => e.kind == EventKind.PopRange)).length := by
  constructor
  · unfold processEvents
    simp only [hstart]
    rw [processEventsGo_eq_spec deviceElapsed start events [] true, hrs]
    rfl
  · exact specTraceRecords_length deviceElapsed start events [] rs hrs

theorem exporter_pairs_ranges_witness :
    processEvents dEC8 evsC8 =
      Except.ok ("[\n" ++ joinRecords true rsC8 ++ "]\n") ∧
    rsC8.length =
      (evsC8.filter (fun e => e.kind == EventKind.PopRange)).length :=
  exporter_pairs_ranges dEC8 evsC8 startC8 rsC8 (by decide) (by decide)

end AutogradProfiler
